import Mathlib

/-!
# Verification of the warelay multi-provider message relay

Shallow embedding of the relay core from `src/index.ts` (Twilio poll
transport: `monitor`, `updateSince`, `waitForFinalStatus`) and
`src/provider-web.ts` (WhatsApp Web session transport: `loginWeb`,
`monitorWebInbox`, `monitorWebProvider`, `loadWebMedia`, `pickProvider`,
`extractText`, `extractMediaPlaceholder`), together with proofs of the
spec's testable properties.

External effects (Twilio fetches, socket connection results, filesystem
reads, send outcomes) are modelled as explicit inputs; the control flow,
filtering, and state updates are translated statement by statement from
the TypeScript source.
-/

namespace Warelay

/-! ## Poll transport (`src/index.ts`, `monitor`)

A Twilio `MessageInstance` as consumed by `monitor`: only the fields the
loop reads (`sid`, `direction`, `dateCreated`, `from`, `to`, `body`).
`dateCreated` is an epoch timestamp in milliseconds, absent when Twilio
returns no date. -/

structure MessageInstance where
  sid : String
  direction : String
  dateCreated : Option Nat
  fromNum : String
  toNum : String
  body : Option String
deriving DecidableEq, Repr

/-- State of the `monitor` polling loop: the `since` watermark, the `seen`
set of sids (a list used as a set), and the stream of messages emitted to
the console (the inbound pipeline invocations), in order. -/
structure MonitorState where
  since : Nat
  seen : List String
  emitted : List MessageInstance
deriving DecidableEq, Repr

/-- `updateSince` from `src/index.ts`: advance `since` to `date` only when
`date` is present and strictly newer. -/
def updateSince (since : Nat) : Option Nat → Nat
  | none => since
  | some d => if d > since then d else since

/-- Body of the `forEach` in `monitor`: skip a sid already in `seen`;
otherwise add it to `seen`, emit the message, and advance the watermark
with the message's `dateCreated`. -/
def stepMessage (st : MonitorState) (m : MessageInstance) : MonitorState :=
  if st.seen.contains m.sid then st
  else
    { since := updateSince st.since m.dateCreated
      seen := m.sid :: st.seen
      emitted := st.emitted ++ [m] }

/-- Sort key used by `monitor`'s comparator: `dateCreated?.getTime() ?? 0`. -/
def createdKey (m : MessageInstance) : Nat := m.dateCreated.getD 0

/-- Insertion step of an ascending stable sort by `createdKey`, modelling
the JS `Array.prototype.sort` call in `monitor`. -/
def insertByCreated (m : MessageInstance) : List MessageInstance → List MessageInstance
  | [] => [m]
  | x :: xs =>
    if createdKey m < createdKey x then m :: x :: xs
    else x :: insertByCreated m xs

/-- Ascending stable sort by creation time, modelling the JS sort in
`monitor`. -/
def sortByCreated : List MessageInstance → List MessageInstance
  | [] => []
  | m :: rest => insertByCreated m (sortByCreated rest)

/-- One iteration of the `monitor` loop over the result of
`client.messages.list`: a fetch error is logged and leaves the state
unchanged; otherwise entries are filtered to inbound direction, sorted
ascending by creation time, and folded through `stepMessage`. -/
def pollIteration (st : MonitorState) (fetchRes : Except String (List MessageInstance)) :
    MonitorState :=
  match fetchRes with
  | .error _ => st
  | .ok msgs =>
    (sortByCreated (msgs.filter (fun m => m.direction == "inbound"))).foldl stepMessage st

/-- The `monitor` loop run over a finite list of fetch results, starting
from the initial lookback watermark `sinceInit`, an empty seen set, and no
emissions. -/
def monitorRun (sinceInit : Nat) (batches : List (Except String (List MessageInstance))) :
    MonitorState :=
  batches.foldl pollIteration { since := sinceInit, seen := [], emitted := [] }

/-! ### Poll-loop invariants -/

/-- Every sid emitted so far is recorded in `seen`, and the emitted sids
are pairwise distinct. -/
def MonitorInv (st : MonitorState) : Prop :=
  (st.emitted.map MessageInstance.sid).Nodup ∧
    ∀ s ∈ st.emitted.map MessageInstance.sid, st.seen.contains s = true

theorem stepMessage_inv {st : MonitorState} (h : MonitorInv st) (m : MessageInstance) :
    MonitorInv (stepMessage st m) := by
  obtain ⟨hnd, hsub⟩ := h
  unfold stepMessage
  split
  · exact ⟨hnd, hsub⟩
  · rename_i hns
    constructor
    · simp only [List.map_append, List.map_cons, List.map_nil]
      rw [List.nodup_append]
      refine ⟨hnd, List.nodup_singleton _, ?_⟩
      intro s hs hmem
      simp only [List.mem_singleton] at hmem
      subst hmem
      exact hns (hsub _ hs)
    · intro s hs
      simp only [List.map_append, List.map_cons, List.map_nil, List.mem_append,
        List.mem_singleton] at hs
      rcases hs with hs | hs
      · have hmem : s ∈ st.seen := by simpa using hsub s hs
        simp [hmem]
      · subst hs
        simp [List.contains_cons]

theorem foldl_stepMessage_inv {st : MonitorState} (h : MonitorInv st)
    (ms : List MessageInstance) : MonitorInv (ms.foldl stepMessage st) := by
  induction ms generalizing st with
  | nil => exact h
  | cons m rest ih => exact ih (stepMessage_inv h m)

theorem pollIteration_inv {st : MonitorState} (h : MonitorInv st)
    (b : Except String (List MessageInstance)) : MonitorInv (pollIteration st b) := by
  cases b with
  | error e => exact h
  | ok msgs => exact foldl_stepMessage_inv h _

theorem monitorRun_inv (s0 : Nat) (bs : List (Except String (List MessageInstance))) :
    MonitorInv (monitorRun s0 bs) := by
  unfold monitorRun
  have h0 : MonitorInv { since := s0, seen := [], emitted := [] } := by
    constructor <;> simp [MonitorInv]
  generalize hst : ({ since := s0, seen := [], emitted := [] } : MonitorState) = st at *
  clear hst
  induction bs generalizing st with
  | nil => exact h0
  | cons b rest ih => exact ih _ (pollIteration_inv h0 b)

/-! ### Watermark lemmas -/

theorem updateSince_eq_max (s : Nat) (o : Option Nat) :
    updateSince s o = o.elim s (Nat.max s) := by
  cases o with
  | none => rfl
  | some d =>
    simp only [updateSince, Option.elim]
    by_cases hc : d > s
    · simp [hc, Nat.max_eq_right (Nat.le_of_lt hc)]
    · simp [hc, Nat.max_eq_left (Nat.le_of_not_lt hc)]

theorem stepMessage_since_le (st : MonitorState) (m : MessageInstance) :
    st.since ≤ (stepMessage st m).since := by
  unfold stepMessage
  split
  · exact Nat.le_refl _
  · simp only [updateSince_eq_max]
    cases m.dateCreated with
    | none => exact Nat.le_refl _
    | some d => exact Nat.le_max_left _ _

theorem foldl_stepMessage_since_le (st : MonitorState) (ms : List MessageInstance) :
    st.since ≤ (ms.foldl stepMessage st).since := by
  induction ms generalizing st with
  | nil => exact Nat.le_refl _
  | cons m rest ih => exact Nat.le_trans (stepMessage_since_le st m) (ih _)

theorem pollIteration_since_le (st : MonitorState) (b : Except String (List MessageInstance)) :
    st.since ≤ (pollIteration st b).since := by
  cases b with
  | error e => exact Nat.le_refl _
  | ok msgs => exact foldl_stepMessage_since_le st _

/-- Watermark bookkeeping: the current `since` is the fold of `max` over
the creation timestamps of the accepted (emitted) entries, seeded with the
value the state started from. Stated relative to an arbitrary seed so it
can be threaded through the fold. -/
def SinceSpec (s0 : Nat) (st : MonitorState) : Prop :=
  st.since = (st.emitted.filterMap MessageInstance.dateCreated).foldl Nat.max s0

theorem stepMessage_sinceSpec {s0 : Nat} {st : MonitorState} (h : SinceSpec s0 st)
    (m : MessageInstance) : SinceSpec s0 (stepMessage st m) := by
  unfold SinceSpec stepMessage at *
  split
  · exact h
  · simp only [List.filterMap_append, List.foldl_append, updateSince_eq_max, h]
    rcases hm : m.dateCreated with _ | d <;> simp [List.filterMap_cons, hm]

theorem foldl_stepMessage_sinceSpec {s0 : Nat} {st : MonitorState} (h : SinceSpec s0 st)
    (ms : List MessageInstance) : SinceSpec s0 (ms.foldl stepMessage st) := by
  induction ms generalizing st with
  | nil => exact h
  | cons m rest ih => exact ih (stepMessage_sinceSpec h m)

theorem pollIteration_sinceSpec {s0 : Nat} {st : MonitorState} (h : SinceSpec s0 st)
    (b : Except String (List MessageInstance)) : SinceSpec s0 (pollIteration st b) := by
  cases b with
  | error e => exact h
  | ok msgs => exact foldl_stepMessage_sinceSpec h _

theorem monitorRun_sinceSpec (s0 : Nat) (bs : List (Except String (List MessageInstance))) :
    SinceSpec s0 (monitorRun s0 bs) := by
  unfold monitorRun
  have h0 : SinceSpec s0 { since := s0, seen := [], emitted := [] } := by
    simp [SinceSpec]
  generalize ({ since := s0, seen := [], emitted := [] } : MonitorState) = st at *
  induction bs generalizing st with
  | nil => exact h0
  | cons b rest ih => exact ih _ (pollIteration_sinceSpec h0 b)

/-! ## Session transport inbound demultiplexing (`src/provider-web.ts`)

The fragment of Baileys' `proto.IMessage` read by `extractText`,
`extractMediaPlaceholder` and `downloadInboundMedia`: optional plain
`conversation` text, optional extended text, and the five media message
kinds. For media kinds only the fields the relay reads are kept. -/

structure ExtendedTextMessage where
  text : Option String
deriving DecidableEq, Repr

structure CaptionedMessage where
  caption : Option String
  mimetype : Option String
deriving DecidableEq, Repr

structure PlainMediaMessage where
  mimetype : Option String
deriving DecidableEq, Repr

structure WAIMessage where
  conversation : Option String
  extendedTextMessage : Option ExtendedTextMessage
  imageMessage : Option CaptionedMessage
  videoMessage : Option CaptionedMessage
  audioMessage : Option PlainMediaMessage
  documentMessage : Option PlainMediaMessage
  stickerMessage : Option PlainMediaMessage
deriving DecidableEq, Repr

/-- Whitespace trimming on the underlying character list, modelling the
JS `String.prototype.trim` used throughout `provider-web.ts`. (Lean's
built-in `String` operations are byte-position based and are avoided so
that all definitions evaluate by kernel reduction.) -/
def trimChars (l : List Char) : List Char :=
  ((l.dropWhile Char.isWhitespace).reverse.dropWhile Char.isWhitespace).reverse

/-- JS `s.trim()`. -/
def jsTrim (s : String) : String := ⟨trimChars s.data⟩

/-- JS `s.endsWith(suffix)`. -/
def strEndsWith (s suffix : String) : Bool := suffix.data.isSuffixOf s.data

/-- JS `s.startsWith(p)`. -/
def strStartsWith (s p : String) : Bool := p.data.isPrefixOf s.data

/-- JS string truthiness after `.trim()`: keep the trimmed string only if
it is non-empty. Models patterns like `s.trim()` used as a condition
followed by `return s.trim()`. -/
def nonBlankTrim : Option String → Option String
  | some s => if jsTrim s = "" then none else some (jsTrim s)
  | none => none

/-- `extractText` from `src/provider-web.ts`: plain `conversation` text
first, then the extended text body, then the image caption falling back to
the video caption; each used only when its trimmed form is non-empty. -/
def extractText (message : Option WAIMessage) : Option String :=
  match message with
  | none => none
  | some m =>
    match nonBlankTrim m.conversation with
    | some t => some t
    | none =>
      match nonBlankTrim (m.extendedTextMessage.bind ExtendedTextMessage.text) with
      | some t => some t
      | none =>
        nonBlankTrim
          ((m.imageMessage.bind CaptionedMessage.caption).orElse
            (fun _ => m.videoMessage.bind CaptionedMessage.caption))

/-- `extractMediaPlaceholder` from `src/provider-web.ts`: a placeholder
token naming the media kind, tried in the source's order. -/
def extractMediaPlaceholder (message : Option WAIMessage) : Option String :=
  match message with
  | none => none
  | some m =>
    if m.imageMessage.isSome then some "<media:image>"
    else if m.videoMessage.isSome then some "<media:video>"
    else if m.audioMessage.isSome then some "<media:audio>"
    else if m.documentMessage.isSome then some "<media:document>"
    else if m.stickerMessage.isSome then some "<media:sticker>"
    else none

/-- Body selection in `monitorWebInbox`: `extractText`, falling back to
`extractMediaPlaceholder`; `none` means the event is dropped. -/
def webBody (message : Option WAIMessage) : Option String :=
  match extractText message with
  | some b => some b
  | none => extractMediaPlaceholder message

/-- `msg.key` of a Baileys event: optional message id, self-origin flag,
remote chat jid, optional group participant. -/
structure WAKey where
  id : Option String
  fromMe : Bool
  remoteJid : Option String
  participant : Option String
deriving DecidableEq, Repr

/-- One entry of `upsert.messages` as read by `monitorWebInbox`. -/
structure WAMessageEvent where
  key : WAKey
  message : Option WAIMessage
  pushName : Option String
  messageTimestamp : Option Nat
deriving DecidableEq, Repr

/-- One `messages.upsert` event: its type tag and message batch. -/
structure WAUpsert where
  type : String
  messages : List WAMessageEvent
deriving DecidableEq, Repr

/-- An `onMessage` invocation recorded by the session-transport loop: the
fields of `WebInboundMessage` that identify the dispatch. -/
structure WebDispatch where
  id : Option String
  fromE164 : String
  toE164 : String
  body : String
deriving DecidableEq, Repr

/-- State of the `monitorWebInbox` event loop: the `seen` id set and the
ordered list of dispatches to the `onMessage` callback. -/
structure WebState where
  seen : List String
  dispatched : List WebDispatch
deriving DecidableEq, Repr

/-- The filtering stages of the `monitorWebInbox` loop body after the
seen-set bookkeeping: drop self-originated events, events without a remote
jid, status/broadcast traffic, events whose jid has no E.164 form, and
events with no extractable body; otherwise dispatch to `onMessage`.
`jidTo` abstracts the `jidToE164` helper and `selfE164` the connected
account's own number. -/
def webFilterDispatch (jidTo : String → Option String) (selfE164 : Option String)
    (st : WebState) (id : Option String) (msg : WAMessageEvent) : WebState :=
  if msg.key.fromMe then st
  else
    match msg.key.remoteJid with
    | none => st
    | some rj =>
      if strEndsWith rj "@status" || strEndsWith rj "@broadcast" then st
      else
        match jidTo rj with
        | none => st
        | some fromE =>
          match webBody msg.message with
          | none => st
          | some body =>
            { st with
              dispatched := st.dispatched ++ [⟨id, fromE, selfE164.getD "me", body⟩] }

/-- One `monitorWebInbox` loop body iteration for one raw message: a
message whose id is already in `seen` is skipped; a message with an id is
added to `seen` before the remaining filters run; a message without an id
is neither checked against nor added to `seen`. -/
def webStepMsg (jidTo : String → Option String) (selfE164 : Option String)
    (st : WebState) (msg : WAMessageEvent) : WebState :=
  match msg.key.id with
  | some i =>
    if st.seen.contains i then st
    else webFilterDispatch jidTo selfE164 { st with seen := i :: st.seen } (some i) msg
  | none => webFilterDispatch jidTo selfE164 st none msg

/-- Handling of one `messages.upsert` event: non-`notify` upserts are
ignored; otherwise each message in the batch is processed in order. -/
def webStepUpsert (jidTo : String → Option String) (selfE164 : Option String)
    (st : WebState) (u : WAUpsert) : WebState :=
  if u.type == "notify" then u.messages.foldl (webStepMsg jidTo selfE164) st else st

/-- The `monitorWebInbox` listener run over a finite sequence of upsert
events, starting from an empty seen set. -/
def webRun (jidTo : String → Option String) (selfE164 : Option String)
    (upserts : List WAUpsert) : WebState :=
  upserts.foldl (webStepUpsert jidTo selfE164) { seen := [], dispatched := [] }

/-! ### Session-loop invariants -/

/-- Dispatched ids are pairwise distinct and all recorded in `seen`. -/
def WebInv (st : WebState) : Prop :=
  (st.dispatched.filterMap WebDispatch.id).Nodup ∧
    ∀ i ∈ st.dispatched.filterMap WebDispatch.id, i ∈ st.seen

theorem webFilterDispatch_seen (jidTo : String → Option String) (selfE164 : Option String)
    (st : WebState) (id : Option String) (msg : WAMessageEvent) :
    (webFilterDispatch jidTo selfE164 st id msg).seen = st.seen := by
  unfold webFilterDispatch
  split
  · rfl
  · split
    · rfl
    · split
      · rfl
      · split
        · rfl
        · split
          · rfl
          · rfl

theorem webFilterDispatch_dispatched (jidTo : String → Option String)
    (selfE164 : Option String) (st : WebState) (id : Option String) (msg : WAMessageEvent) :
    (webFilterDispatch jidTo selfE164 st id msg).dispatched = st.dispatched ∨
      ∃ d : WebDispatch, d.id = id ∧
        (webFilterDispatch jidTo selfE164 st id msg).dispatched = st.dispatched ++ [d] := by
  unfold webFilterDispatch
  split
  · exact Or.inl rfl
  · split
    · exact Or.inl rfl
    · split
      · exact Or.inl rfl
      · split
        · exact Or.inl rfl
        · split
          · exact Or.inl rfl
          · exact Or.inr ⟨_, rfl, rfl⟩

theorem webStepMsg_inv {st : WebState} (h : WebInv st) (jidTo : String → Option String)
    (selfE164 : Option String) (msg : WAMessageEvent) :
    WebInv (webStepMsg jidTo selfE164 st msg) := by
  obtain ⟨hnd, hsub⟩ := h
  unfold webStepMsg
  split
  · rename_i i hid
    split
    · exact ⟨hnd, hsub⟩
    · rename_i hns
      set st' : WebState := { st with seen := i :: st.seen } with hst'
      constructor
      · rcases webFilterDispatch_dispatched jidTo selfE164 st' (some i) msg with hEq | ⟨d, hd, hEq⟩
        · rw [hEq]; exact hnd
        · rw [hEq]
          simp only [List.filterMap_append]
          rw [List.nodup_append]
          refine ⟨hnd, ?_, ?_⟩
          · simp [List.filterMap_cons, hd]
          · intro x hx hxd
            simp only [List.filterMap_cons, hd, List.filterMap_nil, List.mem_singleton] at hxd
            subst hxd
            have : x ∈ st.seen := hsub x hx
            exact hns (by simpa using this)
      · intro x hx
        rw [webFilterDispatch_seen]
        rcases webFilterDispatch_dispatched jidTo selfE164 st' (some i) msg with hEq | ⟨d, hd, hEq⟩
        · rw [hEq] at hx
          exact List.mem_cons_of_mem _ (hsub x hx)
        · rw [hEq] at hx
          simp only [List.filterMap_append, List.mem_append] at hx
          rcases hx with hx | hx
          · exact List.mem_cons_of_mem _ (hsub x hx)
          · simp only [List.filterMap_cons, hd, List.filterMap_nil, List.mem_singleton] at hx
            subst hx
            exact List.mem_cons_self _ _
  · constructor
    · rcases webFilterDispatch_dispatched jidTo selfE164 st none msg with hEq | ⟨d, hd, hEq⟩
      · rw [hEq]; exact hnd
      · rw [hEq]
        simp only [List.filterMap_append]
        simpa [List.filterMap_cons, hd] using hnd
    · intro x hx
      rw [webFilterDispatch_seen]
      rcases webFilterDispatch_dispatched jidTo selfE164 st none msg with hEq | ⟨d, hd, hEq⟩
      · rw [hEq] at hx
        exact hsub x hx
      · rw [hEq] at hx
        simp only [List.filterMap_append, List.filterMap_cons, hd, List.filterMap_nil,
          List.append_nil] at hx
        exact hsub x hx

theorem webStepUpsert_inv {st : WebState} (h : WebInv st) (jidTo : String → Option String)
    (selfE164 : Option String) (u : WAUpsert) :
    WebInv (webStepUpsert jidTo selfE164 st u) := by
  unfold webStepUpsert
  split
  · rename_i htype
    generalize u.messages = ms
    induction ms generalizing st with
    | nil => exact h
    | cons m rest ih => exact ih (webStepMsg_inv h jidTo selfE164 m)
  · exact h

theorem webRun_inv (jidTo : String → Option String) (selfE164 : Option String)
    (us : List WAUpsert) : WebInv (webRun jidTo selfE164 us) := by
  unfold webRun
  have h0 : WebInv { seen := [], dispatched := [] } := by
    constructor <;> simp [WebInv]
  generalize ({ seen := [], dispatched := [] } : WebState) = st at *
  induction us generalizing st with
  | nil => exact h0
  | cons u rest ih => exact ih _ (webStepUpsert_inv h0 jidTo selfE164 u)

/-! ### Dispatch of id-less events -/

theorem webStepMsg_noId (jidTo : String → Option String) (selfE164 : Option String)
    (st : WebState) (msg : WAMessageEvent) (rj f b : String)
    (hid : msg.key.id = none) (hfm : msg.key.fromMe = false)
    (hrj : msg.key.remoteJid = some rj)
    (hs : strEndsWith rj "@status" = false) (hb : strEndsWith rj "@broadcast" = false)
    (hj : jidTo rj = some f) (hbody : webBody msg.message = some b) :
    webStepMsg jidTo selfE164 st msg =
      { st with dispatched := st.dispatched ++ [⟨none, f, selfE164.getD "me", b⟩] } := by
  unfold webStepMsg webFilterDispatch
  simp [hid, hfm, hrj, hs, hb, hj, hbody]

theorem foldl_webStepUpsert_replicate (jidTo : String → Option String)
    (selfE164 : Option String) (u : WAUpsert) (msg : WAMessageEvent) (rj f b : String)
    (hu : u.type = "notify") (hm : u.messages = [msg])
    (hid : msg.key.id = none) (hfm : msg.key.fromMe = false)
    (hrj : msg.key.remoteJid = some rj)
    (hs : strEndsWith rj "@status" = false) (hb : strEndsWith rj "@broadcast" = false)
    (hj : jidTo rj = some f) (hbody : webBody msg.message = some b) :
    ∀ n (st : WebState),
      (List.replicate n u).foldl (webStepUpsert jidTo selfE164) st =
        { st with
          dispatched :=
            st.dispatched ++ List.replicate n ⟨none, f, selfE164.getD "me", b⟩ } := by
  intro n
  induction n with
  | zero => intro st; simp
  | succ k ih =>
    intro st
    rw [List.replicate_succ, List.foldl_cons]
    have hstep : webStepUpsert jidTo selfE164 st u =
        { st with dispatched := st.dispatched ++ [⟨none, f, selfE164.getD "me", b⟩] } := by
      unfold webStepUpsert
      rw [hm]
      simp only [hu, beq_self_eq_true, if_true, List.foldl_cons, List.foldl_nil]
      exact webStepMsg_noId jidTo selfE164 st msg rj f b hid hfm hrj hs hb hj hbody
    rw [hstep, ih]
    simp [List.replicate_succ]

/-! ## Claim theorems for the transport loops -/

/-- C1: for every sequence of inbound events processed by a single
transport instance, events whose id has already been processed are
skipped, so the inbound pipeline is invoked at most once per unique
message id — in the poll transport the emitted messages have pairwise
distinct `sid`s, and in the session transport the dispatched messages
have pairwise distinct ids (among events that carry an id). -/
theorem C1_inbound_dedup_at_most_once :
    (∀ (s0 : Nat) (bs : List (Except String (List MessageInstance))),
      ((monitorRun s0 bs).emitted.map MessageInstance.sid).Nodup) ∧
    (∀ (jidTo : String → Option String) (selfE164 : Option String) (us : List WAUpsert),
      ((webRun jidTo selfE164 us).dispatched.filterMap WebDispatch.id).Nodup) :=
  ⟨fun s0 bs => (monitorRun_inv s0 bs).1,
   fun jidTo selfE164 us => (webRun_inv jidTo selfE164 us).1⟩

/-- An inbound, never-before-seen entry whose creation timestamp (5) is
older than the poll loop's initial lookback watermark (1000). Twilio's
`dateSentAfter` filter is on the sent date, so such an entry can be
returned by a fetch. -/
def mStale : MessageInstance :=
  { sid := "SM1", direction := "inbound", dateCreated := some 5
    fromNum := "whatsapp:+15550001111", toNum := "whatsapp:+15552223333", body := some "hi" }

/-- C2, counterexample: after one iteration that accepts exactly one
entry with creation timestamp 5, the watermark is still the initial value
1000, not the maximum creation timestamp (5) over accepted entries as the
claim states. -/
theorem C2_watermark_counterexample :
    (monitorRun 1000 [.ok [mStale]]).emitted = [mStale] ∧
    (monitorRun 1000 [.ok [mStale]]).emitted.filterMap MessageInstance.dateCreated = [5] ∧
    (monitorRun 1000 [.ok [mStale]]).since = 1000 ∧ (1000 : Nat) ≠ 5 :=
  ⟨rfl, rfl, rfl, by decide⟩

/-- C2, amended: in the poll transport's loop the watermark is
non-decreasing across iterations, and after any number of iterations it
equals the maximum of the initial lookback value and the creation
timestamps of all accepted (inbound, previously unseen) entries; a fetch
returning older data never regresses it. -/
theorem C2_watermark_monotone_max (s0 : Nat)
    (bs : List (Except String (List MessageInstance))) :
    (monitorRun s0 bs).since =
      ((monitorRun s0 bs).emitted.filterMap MessageInstance.dateCreated).foldl Nat.max s0 ∧
    ∀ b, (monitorRun s0 bs).since ≤ (monitorRun s0 (bs ++ [b])).since := by
  refine ⟨monitorRun_sinceSpec s0 bs, fun b => ?_⟩
  unfold monitorRun
  rw [List.foldl_append, List.foldl_cons, List.foldl_nil]
  exact pollIteration_since_le _ b

/-- C10: a session-transport inbound event that carries no message id is
never added to the seen set and never skipped by the de-duplication
check: delivering it `n` times dispatches it to the inbound handler `n`
times, and the seen set stays empty. -/
theorem C10_idless_events_bypass_dedup (jidTo : String → Option String)
    (selfE164 : Option String) (u : WAUpsert) (msg : WAMessageEvent) (rj f b : String)
    (n : Nat)
    (hu : u.type = "notify") (hm : u.messages = [msg])
    (hid : msg.key.id = none) (hfm : msg.key.fromMe = false)
    (hrj : msg.key.remoteJid = some rj)
    (hs : strEndsWith rj "@status" = false) (hb : strEndsWith rj "@broadcast" = false)
    (hj : jidTo rj = some f) (hbody : webBody msg.message = some b) :
    webRun jidTo selfE164 (List.replicate n u) =
      { seen := [], dispatched := List.replicate n ⟨none, f, selfE164.getD "me", b⟩ } := by
  unfold webRun
  rw [foldl_webStepUpsert_replicate jidTo selfE164 u msg rj f b hu hm hid hfm hrj hs hb hj
    hbody n]
  simp

/-- Concrete id-less inbound event used to witness C10. -/
def idlessEvent : WAMessageEvent :=
  { key := { id := none, fromMe := false, remoteJid := some "15551234567@s.whatsapp.net",
             participant := none }
    message := some
      { conversation := some "hello", extendedTextMessage := none, imageMessage := none
        videoMessage := none, audioMessage := none, documentMessage := none
        stickerMessage := none }
    pushName := none, messageTimestamp := some 1700000000 }

/-- C10 witness: delivering the concrete id-less event three times
dispatches it three times and leaves the seen set empty. -/
theorem C10_idless_events_bypass_dedup_witness :
    webRun (fun _ => some "+15551234567") (some "+15559998888")
        (List.replicate 3 { type := "notify", messages := [idlessEvent] }) =
      { seen := [],
        dispatched :=
          List.replicate 3 ⟨none, "+15551234567", "+15559998888", "hello"⟩ } := by
  exact C10_idless_events_bypass_dedup (fun _ => some "+15551234567") (some "+15559998888")
    { type := "notify", messages := [idlessEvent] } idlessEvent
    "15551234567@s.whatsapp.net" "+15551234567" "hello" 3
    rfl rfl rfl rfl rfl (by decide) (by decide) rfl (by decide)

/-! ## Outbound delivery-status polling (`src/index.ts`, `waitForFinalStatus`)

Each fetch of `client.messages(sid).fetch()` is modelled by the fields the
loop reads: `status` (absent maps to the string "unknown"), `errorCode`
and `errorMessage`. The wall-clock deadline is modelled by the number of
iterations whose `Date.now() < deadline` check passes (`fuel`); with the
caller's wait parameter positive at least one iteration runs. -/

structure StatusFetchResult where
  status : Option String
  errorCode : Option Nat
  errorMessage : Option String
deriving DecidableEq, Repr

/-- `successTerminalStatuses` from `src/index.ts`. -/
def successTerminalStatuses : List String := ["delivered", "read"]

/-- `failureTerminalStatuses` from `src/index.ts`. -/
def failureTerminalStatuses : List String := ["failed", "undelivered", "canceled"]

/-- How `waitForFinalStatus` ends: report success, report failure and exit
non-zero propagating the error code and message, or return normally with
the non-fatal "may still be in flight" timeout message. -/
inductive WaitOutcome where
  | deliveredOk (status : String)
  | deliveryFailed (status : String) (errorCode : Option Nat) (errorMessage : Option String)
  | timedOutStillInFlight
deriving DecidableEq, Repr

/-- The status string the loop tests: `m.status ?? 'unknown'`. -/
def observedStatus (m : StatusFetchResult) : String := m.status.getD "unknown"

/-- A status in either terminal set. -/
def IsTerminalStatus (s : String) : Prop :=
  s ∈ successTerminalStatuses ∨ s ∈ failureTerminalStatuses

instance (s : String) : Decidable (IsTerminalStatus s) := by
  unfold IsTerminalStatus
  infer_instance

/-- `waitForFinalStatus` from `src/index.ts`: poll the status stream
(`fetch k` is the k-th fetch result) while the deadline check passes;
success statuses report success, failure statuses report failure with the
fetched error code and message, anything else sleeps and polls again;
when the deadline elapses return the non-fatal timeout. -/
def waitForFinalStatus (fetch : Nat → StatusFetchResult) : Nat → Nat → WaitOutcome
  | 0, _ => .timedOutStillInFlight
  | fuel + 1, k =>
    if observedStatus (fetch k) ∈ successTerminalStatuses then
      .deliveredOk (observedStatus (fetch k))
    else if observedStatus (fetch k) ∈ failureTerminalStatuses then
      .deliveryFailed (observedStatus (fetch k)) (fetch k).errorCode (fetch k).errorMessage
    else waitForFinalStatus fetch fuel (k + 1)

theorem waitForFinalStatus_timeout (fetch : Nat → StatusFetchResult) :
    ∀ fuel k, (∀ j, j < fuel → ¬ IsTerminalStatus (observedStatus (fetch (k + j)))) →
      waitForFinalStatus fetch fuel k = .timedOutStillInFlight := by
  intro fuel
  induction fuel with
  | zero => intro k _; rfl
  | succ f ih =>
    intro k h
    have h0 := h 0 (Nat.succ_pos f)
    rw [Nat.add_zero] at h0
    unfold waitForFinalStatus
    rw [if_neg (fun hc => h0 (Or.inl hc)), if_neg (fun hc => h0 (Or.inr hc))]
    refine ih (k + 1) (fun j hj => ?_)
    have heq : k + 1 + j = k + (j + 1) := by omega
    rw [heq]
    exact h (j + 1) (Nat.succ_lt_succ hj)

theorem waitForFinalStatus_first_terminal (fetch : Nat → StatusFetchResult) :
    ∀ fuel k i, i < fuel →
      (∀ j, j < i → ¬ IsTerminalStatus (observedStatus (fetch (k + j)))) →
      IsTerminalStatus (observedStatus (fetch (k + i))) →
      waitForFinalStatus fetch fuel k =
        (if observedStatus (fetch (k + i)) ∈ successTerminalStatuses then
          .deliveredOk (observedStatus (fetch (k + i)))
        else
          .deliveryFailed (observedStatus (fetch (k + i))) (fetch (k + i)).errorCode
            (fetch (k + i)).errorMessage) := by
  intro fuel
  induction fuel with
  | zero => intro k i hi; omega
  | succ f ih =>
    intro k i hi hpre hterm
    cases i with
    | zero =>
      unfold waitForFinalStatus
      simp only [Nat.add_zero] at hterm ⊢
      by_cases hsucc : observedStatus (fetch k) ∈ successTerminalStatuses
      · rw [if_pos hsucc, if_pos hsucc]
      · have hfail : observedStatus (fetch k) ∈ failureTerminalStatuses := by
          rcases hterm with h | h
          · exact absurd h hsucc
          · exact h
        rw [if_neg hsucc, if_neg hsucc, if_pos hfail]
    | succ i' =>
      have h0 := hpre 0 (Nat.succ_pos i')
      rw [Nat.add_zero] at h0
      unfold waitForFinalStatus
      rw [if_neg (fun hc => h0 (Or.inl hc)), if_neg (fun hc => h0 (Or.inr hc))]
      have heq : k + 1 + i' = k + (i' + 1) := by omega
      have hrec := ih (k + 1) i' (Nat.lt_of_succ_lt_succ hi)
        (fun j hj => by
          have heqj : k + 1 + j = k + (j + 1) := by omega
          rw [heqj]
          exact hpre (j + 1) (Nat.succ_lt_succ hj))
        (by rw [heq]; exact hterm)
      rw [hrec, heq]

/-- C3: for every status stream and deadline, the dispatcher reports
success exactly when the first terminal status observed is delivered or
read; reports failure (exiting non-zero and propagating the fetched error
code and message) exactly when the first terminal status observed is
failed, undelivered or canceled; and when the deadline elapses with no
terminal status observed it returns the non-fatal "may still be in
flight" timeout rather than an error. -/
theorem C3_wait_for_final_status (fetch : Nat → StatusFetchResult) (n i : Nat)
    (hn : i < n)
    (hpre : ∀ j, j < i → ¬ IsTerminalStatus (observedStatus (fetch j))) :
    (observedStatus (fetch i) ∈ successTerminalStatuses →
      waitForFinalStatus fetch n 0 = .deliveredOk (observedStatus (fetch i))) ∧
    (observedStatus (fetch i) ∈ failureTerminalStatuses →
      waitForFinalStatus fetch n 0 =
        .deliveryFailed (observedStatus (fetch i)) (fetch i).errorCode
          (fetch i).errorMessage) ∧
    ((∀ j, j < n → ¬ IsTerminalStatus (observedStatus (fetch j))) →
      waitForFinalStatus fetch n 0 = .timedOutStillInFlight) := by
  refine ⟨fun hsucc => ?_, fun hfail => ?_, fun hnone => ?_⟩
  · have h := waitForFinalStatus_first_terminal fetch n 0 i hn
      (fun j hj => by rw [Nat.zero_add]; exact hpre j hj)
      (by rw [Nat.zero_add]; exact Or.inl hsucc)
    rw [Nat.zero_add] at h
    rw [h, if_pos hsucc]
  · have hns : observedStatus (fetch i) ∉ successTerminalStatuses := by
      intro hmem
      simp only [successTerminalStatuses, failureTerminalStatuses, List.mem_cons,
        List.mem_singleton, List.not_mem_nil] at hmem hfail
      rcases hmem with h1 | h1 <;> rcases hfail with h2 | h2 | h2 <;> simp_all
    have h := waitForFinalStatus_first_terminal fetch n 0 i hn
      (fun j hj => by rw [Nat.zero_add]; exact hpre j hj)
      (by rw [Nat.zero_add]; exact Or.inr hfail)
    rw [Nat.zero_add] at h
    rw [h, if_neg hns]
  · exact waitForFinalStatus_timeout fetch n 0
      (fun j hj => by rw [Nat.zero_add]; exact hnone j hj)

/-- Scenario B status stream: `Queued`, then `Sent`, then `Delivered`. -/
def scenarioBFetch (k : Nat) : StatusFetchResult :=
  if k = 0 then { status := some "queued", errorCode := none, errorMessage := none }
  else if k = 1 then { status := some "sent", errorCode := none, errorMessage := none }
  else { status := some "delivered", errorCode := none, errorMessage := none }

/-- C3 witness (Scenario B): with a 10-poll deadline and statuses queued,
sent, delivered, the dispatcher reports success after the third poll. -/
theorem C3_wait_for_final_status_witness :
    waitForFinalStatus scenarioBFetch 10 0 = .deliveredOk "delivered" := by
  have h := C3_wait_for_final_status scenarioBFetch 10 2 (by decide) (by decide)
  exact h.1 (by decide)

/-! ## Media guard (`src/provider-web.ts`, `loadWebMedia`)

The network fetch and the filesystem read are modelled as explicit
inputs. Error messages are modelled structurally: `tooLarge` carries the
cap (in MB, as printed) and the observed byte size that the thrown
message interpolates; `fetchFailed` carries the HTTP status the message
interpolates. -/

/-- The web (session) transport media cap: 16MB. -/
def MAX_WEB_BYTES : Nat := 16 * 1024 * 1024

/-- The part of a `fetch` response `loadWebMedia` reads: `res.ok`, body
presence, `res.status`, the body bytes, and the content-type header. -/
structure HttpResponse where
  ok : Bool
  hasBody : Bool
  status : Nat
  bodyBytes : List UInt8
  contentType : Option String
deriving DecidableEq, Repr

/-- The value `loadWebMedia` resolves with. -/
structure WebMedia where
  buffer : List UInt8
  contentType : Option String
deriving DecidableEq, Repr

/-- The errors `loadWebMedia` throws, with the data their messages
interpolate. -/
inductive MediaError where
  | fetchFailed (status : Nat)
  | tooLarge (limitMB : Nat) (gotBytes : Nat)
  | fileReadError
deriving DecidableEq, Repr

/-- The `/^https?:\/\//i` test in `loadWebMedia`: a case-insensitive
`http://` or `https://` scheme. -/
def isRemoteUrl (url : String) : Bool :=
  ((url.data.take 7).map Char.toLower == "http://".data) ||
    ((url.data.take 8).map Char.toLower == "https://".data)

/-- The `file://` stripping at the top of `loadWebMedia`. -/
def strippedUrl (mediaUrl : String) : String :=
  if strStartsWith mediaUrl "file://" then ⟨mediaUrl.data.drop 7⟩ else mediaUrl

/-- `loadWebMedia` from `src/provider-web.ts`: strip a leading `file://`,
then for a remote URL check `res.ok` and body presence before reading the
body, enforce the cap on the fetched bytes, and return buffer plus
content type; for a local path read the file and enforce the same cap.
`fetchRes` is the network response and `fileRes` the filesystem read
outcome. -/
def loadWebMedia (mediaUrl : String) (fetchRes : HttpResponse)
    (fileRes : Except Unit (List UInt8)) : Except MediaError WebMedia :=
  if isRemoteUrl (strippedUrl mediaUrl) then
    if !fetchRes.ok || !fetchRes.hasBody then .error (.fetchFailed fetchRes.status)
    else if fetchRes.bodyBytes.length > MAX_WEB_BYTES then
      .error (.tooLarge (MAX_WEB_BYTES / (1024 * 1024)) fetchRes.bodyBytes.length)
    else .ok { buffer := fetchRes.bodyBytes, contentType := fetchRes.contentType }
  else
    match fileRes with
    | .error _ => .error .fileReadError
    | .ok data =>
      if data.length > MAX_WEB_BYTES then
        .error (.tooLarge (MAX_WEB_BYTES / (1024 * 1024)) data.length)
      else .ok { buffer := data, contentType := none }

theorem loadWebMedia_ok_le_cap (url : String) (res : HttpResponse)
    (fr : Except Unit (List UInt8)) (m : WebMedia)
    (hm : loadWebMedia url res fr = .ok m) : m.buffer.length ≤ MAX_WEB_BYTES := by
  unfold loadWebMedia at hm
  split at hm
  · split at hm
    · exact absurd hm (by simp)
    · split at hm
      · exact absurd hm (by simp)
      · rename_i hle
        simp only [Except.ok.injEq] at hm
        subst hm
        exact Nat.le_of_not_lt hle
  · split at hm
    · exact absurd hm (by simp)
    · split at hm
      · exact absurd hm (by simp)
      · rename_i data hle
        simp only [Except.ok.injEq] at hm
        subst hm
        exact Nat.le_of_not_lt hle

/-- C4: the media guard returns a payload of exactly the cap size
unchanged (remote and local); a payload of more than the cap fails with a
size error carrying the observed byte count; a successful result never
exceeds the cap; and a remote fetch whose HTTP outcome is bad (`!res.ok`
or missing body) fails with the HTTP status before the body is used. -/
theorem C4_media_guard_cap (url : String) (res : HttpResponse)
    (fr : Except Unit (List UInt8)) :
    (∀ m, loadWebMedia url res fr = .ok m → m.buffer.length ≤ MAX_WEB_BYTES) ∧
    (isRemoteUrl (strippedUrl url) = true →
      (res.ok = true → res.hasBody = true →
        (res.bodyBytes.length = MAX_WEB_BYTES →
          loadWebMedia url res fr = .ok { buffer := res.bodyBytes
                                          contentType := res.contentType }) ∧
        (res.bodyBytes.length > MAX_WEB_BYTES →
          loadWebMedia url res fr = .error (.tooLarge 16 res.bodyBytes.length))) ∧
      ((res.ok = false ∨ res.hasBody = false) →
        loadWebMedia url res fr = .error (.fetchFailed res.status))) ∧
    (isRemoteUrl (strippedUrl url) = false →
      ∀ data, fr = .ok data →
        (data.length = MAX_WEB_BYTES →
          loadWebMedia url res fr = .ok { buffer := data, contentType := none }) ∧
        (data.length > MAX_WEB_BYTES →
          loadWebMedia url res fr = .error (.tooLarge 16 data.length))) := by
  refine ⟨fun m hm => loadWebMedia_ok_le_cap url res fr m hm, fun hrem => ⟨?_, ?_⟩,
    fun hloc data hdata => ⟨?_, ?_⟩⟩
  · intro hok hbody
    constructor
    · intro hlen
      simp [loadWebMedia, hrem, hok, hbody, hlen]
    · intro hlen
      simp only [loadWebMedia, hrem, if_true, hok, hbody, Bool.not_true, Bool.or_self,
        Bool.false_eq_true, if_false]
      rw [if_pos hlen]
      norm_num [MAX_WEB_BYTES]
  · intro hbad
    rcases hbad with hbad | hbad <;> simp [loadWebMedia, hrem, hbad]
  · intro hlen
    simp [loadWebMedia, hloc, hdata, hlen]
  · intro hlen
    simp only [loadWebMedia, hloc, Bool.false_eq_true, if_false, hdata]
    rw [if_pos hlen]
    norm_num [MAX_WEB_BYTES]

/-- C4 witness: for the remote URL `https://x/y.png`, a response body of
exactly 16MB succeeds, one of 16MB + 1 byte fails with the observed size
in the error, and a non-ok response fails with its HTTP status. -/
theorem C4_media_guard_cap_witness :
    loadWebMedia "https://x/y.png"
        { ok := true, hasBody := true, status := 200
          bodyBytes := List.replicate MAX_WEB_BYTES 7, contentType := some "image/png" }
        (.error ()) =
      .ok { buffer := List.replicate MAX_WEB_BYTES 7, contentType := some "image/png" } ∧
    loadWebMedia "https://x/y.png"
        { ok := true, hasBody := true, status := 200
          bodyBytes := List.replicate (MAX_WEB_BYTES + 1) 7, contentType := some "image/png" }
        (.error ()) =
      .error (.tooLarge 16 (MAX_WEB_BYTES + 1)) ∧
    loadWebMedia "https://x/y.png"
        { ok := false, hasBody := true, status := 404, bodyBytes := [], contentType := none }
        (.error ()) =
      .error (.fetchFailed 404) := by
  have hrem : isRemoteUrl (strippedUrl "https://x/y.png") = true := by decide
  refine ⟨?_, ?_, ?_⟩
  · have h := (C4_media_guard_cap "https://x/y.png"
      { ok := true, hasBody := true, status := 200
        bodyBytes := List.replicate MAX_WEB_BYTES 7, contentType := some "image/png" }
      (.error ())).2.1 hrem
    exact (h.1 rfl rfl).1 (by simp)
  · have h := (C4_media_guard_cap "https://x/y.png"
      { ok := true, hasBody := true, status := 200
        bodyBytes := List.replicate (MAX_WEB_BYTES + 1) 7, contentType := some "image/png" }
      (.error ())).2.1 hrem
    have hlen : (List.replicate (MAX_WEB_BYTES + 1) (7 : UInt8)).length > MAX_WEB_BYTES := by
      simp
    have hres := (h.1 rfl rfl).2 hlen
    simpa using hres
  · have h := (C4_media_guard_cap "https://x/y.png"
      { ok := false, hasBody := true, status := 404, bodyBytes := [], contentType := none }
      (.error ())).2.1 hrem
    exact h.2 (Or.inl rfl)

/-! ## Login and reconnect policy (`src/provider-web.ts`, `loginWeb`)

`loginWeb` creates a socket with the pairing QR prompt enabled and waits
for the connection. The outcome of each `waitForWaConnection` call is
modelled by `ConnResult`; a close rejection carries the Boom status code
read by `loginWeb`'s catch (`err.error.output.statusCode`) and a message.
`socketsCreated` records, in order, the `printQr` flag of every
`createWaSocket` call, so `[true, false]` means one pairing-prompt socket
followed by one promptless reconnect. -/

/-- Baileys `DisconnectReason.loggedOut`. -/
def disconnectReasonLoggedOut : Nat := 401

/-- The restart-required close code matched literally in `loginWeb`. -/
def restartRequiredCode : Nat := 515

structure CloseError where
  statusCode : Option Nat
  message : String
deriving DecidableEq, Repr

/-- Result of one `waitForWaConnection` call. -/
inductive ConnResult where
  | opened
  | closed (err : CloseError)
deriving DecidableEq, Repr

/-- How `loginWeb` ends: linked on the first attempt; linked after the
automatic post-515 restart; the logged-out error demanding re-pairing;
a formatted error carrying the first close error; or the retry's close
error propagating raw out of the retry's un-caught `await`. -/
inductive LoginOutcome where
  | linked
  | linkedAfterRestart
  | loggedOutError
  | failed (err : CloseError)
  | retryFailed (err : CloseError)
deriving DecidableEq, Repr

structure LoginResult where
  outcome : LoginOutcome
  socketsCreated : List Bool
  credsCleared : Bool
deriving DecidableEq, Repr

/-- `loginWeb` from `src/provider-web.ts`: wait for the first connection
(socket created with the QR prompt); on close with code 515 reconnect
exactly once without the prompt and surface that retry's own result (its
`await` has no catch, so a second close propagates the retry's error); on
close with the logged-out code delete the credential directory and fail
demanding re-pairing; on any other close fail with the formatted first
error. `first` and `retry` are the two connection outcomes. -/
def loginWeb (first retry : ConnResult) : LoginResult :=
  match first with
  | .opened => { outcome := .linked, socketsCreated := [true], credsCleared := false }
  | .closed e =>
    if e.statusCode = some restartRequiredCode then
      match retry with
      | .opened =>
        { outcome := .linkedAfterRestart, socketsCreated := [true, false]
          credsCleared := false }
      | .closed e2 =>
        { outcome := .retryFailed e2, socketsCreated := [true, false], credsCleared := false }
    else if e.statusCode = some disconnectReasonLoggedOut then
      { outcome := .loggedOutError, socketsCreated := [true], credsCleared := true }
    else
      { outcome := .failed e, socketsCreated := [true], credsCleared := false }

/-- C5 counterexample: when the first connection closes with code 515 and
the automatic retry also closes, the error surfaced to the caller is the
retry's close error, not the original (first) close error as the claim
states. -/
theorem C5_retry_error_counterexample :
    (loginWeb (.closed { statusCode := some 515, message := "original close" })
        (.closed { statusCode := some 500, message := "retry close" })).outcome =
      .retryFailed { statusCode := some 500, message := "retry close" } ∧
    ({ statusCode := some 500, message := "retry close" } : CloseError) ≠
      { statusCode := some 515, message := "original close" } :=
  ⟨rfl, by decide⟩

/-- C5, amended: on a first close with the restart-required code (515)
exactly one automatic reconnect is attempted without re-showing the
pairing prompt; if the retry reaches the open state the caller is told
the session is linked with no second prompt; if the retry also closes,
the retry's close error (not the original) is surfaced to the caller. -/
theorem C5_restart_retry_once (e : CloseError) (r : ConnResult)
    (h : e.statusCode = some restartRequiredCode) :
    (loginWeb (.closed e) r).socketsCreated = [true, false] ∧
    (loginWeb (.closed e) r).credsCleared = false ∧
    (r = .opened → (loginWeb (.closed e) r).outcome = .linkedAfterRestart) ∧
    (∀ e2, r = .closed e2 → (loginWeb (.closed e) r).outcome = .retryFailed e2) := by
  cases r <;> simp [loginWeb, h]

/-- C5 witness: a first close with code 515 followed by a successful
retry links after exactly one promptless reconnect. -/
theorem C5_restart_retry_once_witness :
    (loginWeb (.closed { statusCode := some 515, message := "restart required" })
        .opened).outcome = .linkedAfterRestart ∧
    (loginWeb (.closed { statusCode := some 515, message := "restart required" })
        .opened).socketsCreated = [true, false] := by
  have h := C5_restart_retry_once { statusCode := some 515, message := "restart required" }
    .opened rfl
  exact ⟨h.2.2.1 rfl, h.1⟩

/-- C7 counterexample: when the logged-out close happens on the automatic
post-515 retry, still during login, the credential snapshot is not
deleted — the retry's rejection propagates raw and never reaches the
logged-out branch. -/
theorem C7_loggedout_counterexample :
    (loginWeb (.closed { statusCode := some 515, message := "restart required" })
        (.closed { statusCode := some 401, message := "logged out" })).credsCleared = false ∧
    (loginWeb (.closed { statusCode := some 515, message := "restart required" })
        (.closed { statusCode := some 401, message := "logged out" })).outcome =
      .retryFailed { statusCode := some 401, message := "logged out" } :=
  ⟨rfl, rfl⟩

/-- Whether the first connection attempt closed with the logged-out
code. -/
def loggedOutFirstClose : ConnResult → Bool
  | .closed e => decide (e.statusCode = some disconnectReasonLoggedOut)
  | .opened => false

/-- C7, amended: the credential snapshot is deleted exactly when the
first connection attempt of login closes with the logged-out reason, in
which case login fails with the error demanding re-pairing; a logged-out
close of the automatic post-515 retry surfaces the raw retry error
without deleting the snapshot. -/
theorem C7_loggedout_clears_creds (first retry : ConnResult) :
    ((loginWeb first retry).credsCleared = loggedOutFirstClose first) ∧
    (∀ e, first = .closed e → e.statusCode = some disconnectReasonLoggedOut →
      loginWeb first retry =
        { outcome := .loggedOutError, socketsCreated := [true], credsCleared := true }) := by
  have hne1 : ¬ restartRequiredCode = disconnectReasonLoggedOut := by decide
  have hne2 : ¬ disconnectReasonLoggedOut = restartRequiredCode := by decide
  constructor
  · cases first with
    | opened => rfl
    | closed e =>
      by_cases h515 : e.statusCode = some restartRequiredCode
      · have h401 : ¬ e.statusCode = some disconnectReasonLoggedOut := by
          rw [h515]
          simp [hne1]
        cases retry <;> simp [loginWeb, loggedOutFirstClose, h515, h401, hne1]
      · by_cases h401 : e.statusCode = some disconnectReasonLoggedOut
        · simp [loginWeb, loggedOutFirstClose, h515, h401, hne2]
        · simp [loginWeb, loggedOutFirstClose, h515, h401]
  · intro e hf h401
    subst hf
    have h515 : ¬ e.statusCode = some restartRequiredCode := by
      rw [h401]
      simp [hne2]
    simp [loginWeb, h515, h401, hne2]

/-- C7 witness: a first close with the logged-out code (401) deletes the
credential snapshot and fails demanding re-pairing. -/
theorem C7_loggedout_clears_creds_witness :
    loginWeb (.closed { statusCode := some 401, message := "logged out" }) .opened =
      { outcome := .loggedOutError, socketsCreated := [true], credsCleared := true } :=
  (C7_loggedout_clears_creds (.closed { statusCode := some 401, message := "logged out" })
    .opened).2 _ rfl rfl

/-! ## Auto-reply dispatch (`src/provider-web.ts`, `monitorWebProvider`)

The `onMessage` handler in `monitorWebProvider`: the reply resolver's
result, the media guard fetch, the media send and the text send are
explicit inputs; the handler's observable behaviour is the ordered list
of actions it performs. `autoReplyBody` models the outer `try` body and
returns the actions performed plus the error escaping it, if any;
`handleAutoReply` adds the outer `catch`, which logs and returns
normally, so the inbound pipeline loop always continues. -/

/-- The reply resolver's result: optional text and optional media URL. -/
structure ReplyResult where
  text : Option String
  mediaUrl : Option String
deriving DecidableEq, Repr

/-- JS truthiness of an optional string field: present and non-empty. -/
def truthy : Option String → Bool
  | some s => !(s == "")
  | none => false

/-- Observable actions of the auto-reply handler. -/
inductive ReplyAction where
  | sentMedia (bytes : Nat) (caption : Option String)
  | sentText (t : String)
  | loggedMediaFailure
  | loggedReplyFailure
  | skippedNoContent
deriving DecidableEq, Repr

/-- Whether an `Except` computation succeeded. -/
def exceptOk {ε α : Type} : Except ε α → Bool
  | .ok _ => true
  | .error _ => false

/-- The inner media `catch` in `monitorWebProvider`: log the media
failure, then if the resolver also returned (truthy) text, attempt a
text-only reply — whose own failure escapes this catch to the outer
one. -/
def mediaFallback (rr : ReplyResult) (sendTextRes : Except String Unit) :
    List ReplyAction × Option String :=
  if truthy rr.text then
    match sendTextRes with
    | .ok _ => ([.loggedMediaFailure, .sentText (rr.text.getD "")], none)
    | .error e => ([.loggedMediaFailure], some e)
  else ([.loggedMediaFailure], none)

/-- The outer `try` body of the `onMessage` handler: with a truthy media
URL, load the media and send it, falling into the inner catch when either
fails; otherwise send the text reply (`replyResult.text ?? ""`). The
second component is the error escaping the body, if any. -/
def autoReplyBody (rr : ReplyResult) (mediaLoad : Except MediaError WebMedia)
    (sendMediaRes sendTextRes : Except String Unit) :
    List ReplyAction × Option String :=
  if truthy rr.mediaUrl then
    match mediaLoad with
    | .ok media =>
      match sendMediaRes with
      | .ok _ =>
        ([.sentMedia media.buffer.length (if truthy rr.text then rr.text else none)], none)
      | .error _ => mediaFallback rr sendTextRes
    | .error _ => mediaFallback rr sendTextRes
  else
    match sendTextRes with
    | .ok _ => ([.sentText (rr.text.getD "")], none)
    | .error e => ([], some e)

/-- The complete `onMessage` handler of `monitorWebProvider` after the
resolver returned: skip when the resolver returned nothing truthy, run
the try body otherwise, and let the outer catch log any escaping error
and return normally. -/
def handleAutoReply (replyResult : Option ReplyResult) (mediaLoad : Except MediaError WebMedia)
    (sendMediaRes sendTextRes : Except String Unit) : List ReplyAction :=
  match replyResult with
  | none => [.skippedNoContent]
  | some rr =>
    if !truthy rr.text && !truthy rr.mediaUrl then [.skippedNoContent]
    else
      match autoReplyBody rr mediaLoad sendMediaRes sendTextRes with
      | (acts, none) => acts
      | (acts, some _) => acts ++ [.loggedReplyFailure]

theorem handleAutoReply_media_failure (rr : ReplyResult)
    (mediaLoad : Except MediaError WebMedia) (sendMediaRes sendTextRes : Except String Unit)
    (hmedia : truthy rr.mediaUrl = true)
    (hfail : (exceptOk mediaLoad && exceptOk sendMediaRes) = false) :
    handleAutoReply (some rr) mediaLoad sendMediaRes sendTextRes =
      if truthy rr.text then
        match sendTextRes with
        | .ok _ => [.loggedMediaFailure, .sentText (rr.text.getD "")]
        | .error _ => [.loggedMediaFailure, .loggedReplyFailure]
      else [.loggedMediaFailure] := by
  cases mediaLoad with
  | error e =>
    cases htext : truthy rr.text <;> cases sendTextRes <;>
      simp [handleAutoReply, autoReplyBody, mediaFallback, hmedia, htext]
  | ok media =>
    cases sendMediaRes with
    | ok u => simp [exceptOk] at hfail
    | error e =>
      cases htext : truthy rr.text <;> cases sendTextRes <;>
        simp [handleAutoReply, autoReplyBody, mediaFallback, hmedia, htext]

/-- C6: when the reply resolver returned a media URL and the media
guard's fetch or the media send fails, no media is sent; the failure is
logged; if the resolver also returned text a text-only reply is sent;
otherwise no reply is sent; and the handler returns its action list
normally (the outer catch swallows even the fallback's failure), so no
error reaches the inbound pipeline loop. -/
theorem C6_media_failure_fallback (rr : ReplyResult)
    (mediaLoad : Except MediaError WebMedia) (sendMediaRes sendTextRes : Except String Unit)
    (hmedia : truthy rr.mediaUrl = true)
    (hfail : (exceptOk mediaLoad && exceptOk sendMediaRes) = false) :
    (∀ b c, ReplyAction.sentMedia b c ∉
      handleAutoReply (some rr) mediaLoad sendMediaRes sendTextRes) ∧
    ReplyAction.loggedMediaFailure ∈
      handleAutoReply (some rr) mediaLoad sendMediaRes sendTextRes ∧
    (truthy rr.text = true → sendTextRes = .ok () →
      handleAutoReply (some rr) mediaLoad sendMediaRes sendTextRes =
        [.loggedMediaFailure, .sentText (rr.text.getD "")]) ∧
    (truthy rr.text = false →
      handleAutoReply (some rr) mediaLoad sendMediaRes sendTextRes =
        [.loggedMediaFailure]) := by
  have hkey := handleAutoReply_media_failure rr mediaLoad sendMediaRes sendTextRes hmedia hfail
  refine ⟨?_, ?_, ?_, ?_⟩
  · intro b c hmem
    rw [hkey] at hmem
    by_cases htext : truthy rr.text = true
    · rw [if_pos htext] at hmem
      cases sendTextRes <;> simp at hmem
    · rw [if_neg htext] at hmem
      simp at hmem
  · rw [hkey]
    by_cases htext : truthy rr.text = true
    · rw [if_pos htext]
      cases sendTextRes <;> simp
    · rw [if_neg htext]
      simp
  · intro htext hok
    subst hok
    rw [hkey, if_pos htext]
  · intro htext
    rw [hkey, if_neg (by simp [htext])]

/-- C6 witness: resolver returned text "hello" and a media URL, the media
fetch fails with HTTP 404 — the handler sends a text-only reply after
logging the media failure. -/
theorem C6_media_failure_fallback_witness :
    handleAutoReply (some { text := some "hello", mediaUrl := some "https://x/y.png" })
        (.error (.fetchFailed 404)) (.ok ()) (.ok ()) =
      [.loggedMediaFailure, .sentText "hello"] := by
  have h := C6_media_failure_fallback
    { text := some "hello", mediaUrl := some "https://x/y.png" }
    (.error (.fetchFailed 404)) (.ok ()) (.ok ()) rfl rfl
  exact h.2.2.1 rfl rfl

/-! ## Text extraction priority (`src/provider-web.ts`) -/

/-- Modelled from the spec: "extract text using priority order: plain
text body, then rich/extended text body, then media caption; if none
present but a media attachment exists, synthesize a placeholder token
identifying the media kind (image/video/audio/document/sticker)",
written as an explicit first-of chain over the three text sources with
the placeholder as last resort. -/
def specPriorityBody (message : Option WAIMessage) : Option String :=
  match message with
  | none => none
  | some m =>
    (((nonBlankTrim m.conversation).orElse
      (fun _ => nonBlankTrim (m.extendedTextMessage.bind ExtendedTextMessage.text))).orElse
      (fun _ => nonBlankTrim ((m.imageMessage.bind CaptionedMessage.caption).orElse
        (fun _ => m.videoMessage.bind CaptionedMessage.caption)))).orElse
      (fun _ => extractMediaPlaceholder (some m))

/-- C8: the body the session transport extracts follows the priority
order plain conversation text, then extended text, then media caption,
with the media-kind placeholder synthesized only when no text source is
present; and a message carrying only an image / video / audio / document
/ sticker attachment yields the placeholder naming that kind. -/
theorem C8_text_priority_and_placeholders :
    (∀ message : Option WAIMessage, webBody message = specPriorityBody message) ∧
    (∀ mt, webBody
      (some (WAIMessage.mk none none (some (CaptionedMessage.mk none mt)) none none none
        none)) = some "<media:image>") ∧
    (∀ mt, webBody
      (some (WAIMessage.mk none none none (some (CaptionedMessage.mk none mt)) none none
        none)) = some "<media:video>") ∧
    (∀ mt, webBody
      (some (WAIMessage.mk none none none none (some (PlainMediaMessage.mk mt)) none
        none)) = some "<media:audio>") ∧
    (∀ mt, webBody
      (some (WAIMessage.mk none none none none none (some (PlainMediaMessage.mk mt))
        none)) = some "<media:document>") ∧
    (∀ mt, webBody
      (some (WAIMessage.mk none none none none none none
        (some (PlainMediaMessage.mk mt)))) = some "<media:sticker>") := by
  refine ⟨?_, fun mt => rfl, fun mt => rfl, fun mt => rfl, fun mt => rfl, fun mt => rfl⟩
  intro message
  cases message with
  | none => rfl
  | some m =>
    unfold webBody extractText specPriorityBody
    rcases h1 : nonBlankTrim m.conversation with _ | t1
    · rcases h2 : nonBlankTrim (m.extendedTextMessage.bind ExtendedTextMessage.text)
        with _ | t2
      · rcases h3 : nonBlankTrim ((m.imageMessage.bind CaptionedMessage.caption).orElse
            (fun _ => m.videoMessage.bind CaptionedMessage.caption)) with _ | t3 <;>
          simp only [h1, h2, h3, Option.none_orElse', Option.some_orElse']
      · simp only [h1, h2, Option.none_orElse', Option.some_orElse']
    · simp only [h1, Option.none_orElse', Option.some_orElse']

/-! ## Provider selection (`src/provider-web.ts`, `pickProvider`) -/

inductive Provider where
  | twilio
  | web
deriving DecidableEq, Repr

/-- The provider preference: an explicit provider or `"auto"`. -/
inductive ProviderPref where
  | explicitPref (p : Provider)
  | auto
deriving DecidableEq, Repr

/-- `pickProvider` from `src/provider-web.ts`: an explicit preference is
returned unchanged; `auto` selects web exactly when `webAuthExists`
resolves true (the credentials directory exists), else twilio. `hasWeb`
is the result of the `webAuthExists` filesystem probe. -/
def pickProvider (pref : ProviderPref) (hasWeb : Bool) : Provider :=
  match pref with
  | .explicitPref p => p
  | .auto => if hasWeb then .web else .twilio

/-- C9: an explicit provider preference is returned unchanged without
consulting the credential probe (the result is the same whatever the
probe returns), and `auto` resolves to the web provider exactly when the
session transport's credential snapshot directory exists, otherwise to
the twilio provider. -/
theorem C9_provider_resolution :
    (∀ (p : Provider) (h1 h2 : Bool), pickProvider (.explicitPref p) h1 = p ∧
      pickProvider (.explicitPref p) h1 = pickProvider (.explicitPref p) h2) ∧
    pickProvider .auto true = .web ∧ pickProvider .auto false = .twilio :=
  ⟨fun _ _ _ => ⟨rfl, rfl⟩, rfl, rfl⟩

end Warelay
